import Mathlib

/-
Verification of the ARM architecture core of the Jailhouse partitioning
hypervisor: stage-2 cell page-table management (mmu_cell.c), the
exception-level transition helpers and identity-map scratch allocator
(mmu_hyp.c), and the ivshmem doorbell router (ivshmem.c).

The C code is shallowly embedded: machine words are Nat with explicit
reduction modulo 2^32 where 32-bit overflow matters, bitmask flag words
become structures of Booleans (the C code ors together distinct bits),
and the global state mutated by a function is passed and returned
explicitly.  The generic paging collaborator (paging_create,
paging_destroy, paging_virt2phys) is not part of the sources and is
modelled from the specification.
-/

set_option autoImplicit false

namespace Jailhouse

/-- Size of one page, 4096 bytes (PAGE_SIZE). -/
def PAGE_SIZE : Nat := 4096

/-- Truncation to a 32-bit unsigned long, the word size of this 32-bit ARM port. -/
def u32 (n : Nat) : Nat := n % 2 ^ 32

/-- Evaluation of the C expression (a & PAGE_MASK) where
PAGE_MASK = ~(PAGE_SIZE - 1): for a < 2^32 the bitwise and with
0xFFFFF000 clears the low 12 bits, which equals subtracting a % 4096. -/
def pageBase (a : Nat) : Nat := a - a % PAGE_SIZE

/-- Memory-attribute set of a configured region: the JAILHOUSE_MEM_* flag
bits of struct jailhouse_memory, as a structure of Booleans. -/
structure MemFlags where
  read : Bool
  write : Bool
  execute : Bool
  io : Bool
  commRegion : Bool
deriving DecidableEq

/-- Memory region descriptor (struct jailhouse_memory): physical start,
guest-visible virtual start, size, attribute flags. -/
structure JailhouseMemory where
  phys_start : Nat
  virt_start : Nat
  size : Nat
  flags : MemFlags
deriving DecidableEq

/-- Stage-2 / stage-1 page-table entry attribute bits used by this port,
as a structure of Booleans: PTE_FLAG_VALID, PTE_ACCESS_FLAG,
S2_PTE_ACCESS_RO (read access), S2_PTE_ACCESS_WO (write access),
S2_PTE_FLAG_DEVICE, S2_PTE_FLAG_NORMAL, S2_PAGE_ACCESS_XN (execute never). -/
structure PTEFlags where
  valid : Bool
  accessFlag : Bool
  s2ro : Bool
  s2wo : Bool
  device : Bool
  normal : Bool
  xn : Bool
deriving DecidableEq

/-- Modelled from the spec: a single established mapping held by the
generic paging collaborator (missing from the sources, spec section 6):
backing physical start, virtual start, size and attribute flags. -/
structure Mapping where
  phys : Nat
  virt : Nat
  size : Nat
  flags : PTEFlags
deriving DecidableEq

/-- Modelled from the spec: the state of one paging structure (a cell's
stage-2 table or the hypervisor's own stage-1 table) as the list of
mappings established in it, most recent first. -/
abbrev PagingStructs : Type := List Mapping

/-- Modelled from the spec: the create_mapping primitive of the paging
collaborator; argument order follows the C call
paging_create(structs, phys, size, virt, flags, coherency). -/
def paging_create (pg : PagingStructs) (phys size virt : Nat) (flags : PTEFlags) :
    PagingStructs :=
  (⟨phys, virt, size, flags⟩ : Mapping) :: pg

/-- Modelled from the spec: the destroy_mapping primitive removes the
mappings established at exactly this virtual start and size. -/
def paging_destroy (pg : PagingStructs) (virt size : Nat) : PagingStructs :=
  pg.filter (fun m => !(m.virt = virt ∧ m.size = size : Bool))

/-- Modelled from the spec: find the mapping whose virtual range contains
the given address. -/
def findMapping (pg : PagingStructs) (virt : Nat) : Option Mapping :=
  pg.find? (fun m => m.virt ≤ virt && virt < m.virt + m.size)

/-- Requested access for a translation query (the flags argument of
paging_virt2phys). -/
structure AccessReq where
  read : Bool
  write : Bool
  exec : Bool
deriving DecidableEq

/-- Stage-2 entry attribute check against a requested access: read needs
the read-access bit, write the write-access bit; execute is permitted
unless the execute-never attribute is set; the entry must be valid. -/
def flagsGrant (f : PTEFlags) (a : AccessReq) : Bool :=
  f.valid && (!a.read || f.s2ro) && (!a.write || f.s2wo) && (!a.exec || !f.xn)

/-- Presence-only query flags (PAGE_PRESENT_FLAGS). -/
def PAGE_PRESENT_FLAGS : AccessReq := ⟨false, false, false⟩

/-- Modelled from the spec: the virt_to_phys translation primitive of the
paging collaborator; returns none (INVALID_PHYS_ADDR) when no mapping
covers the address or the mapping does not grant the requested access. -/
def paging_virt2phys (pg : PagingStructs) (virt : Nat) (req : AccessReq) : Option Nat :=
  match findMapping pg virt with
  | some m => if flagsGrant m.flags req then some (m.phys + (virt - m.virt)) else none
  | none => none

/-- Per-cell state used by the embedded functions: cell identifier, the
assigned-CPU bitmap, the hypervisor-virtual address of the cell's private
communication page, and the configured virtual PCI interrupt base. -/
structure Cell where
  id : Nat
  cpu_set : Nat
  comm_page_addr : Nat
  vpci_irq_base : Nat
deriving DecidableEq

/-- Attribute translation performed by arch_map_memory_region
(mmu_cell.c lines 22-38): start from PTE_FLAG_VALID | PTE_ACCESS_FLAG,
or in the stage-2 read and write access bits from the region flags,
choose device or normal memory type by the IO flag.  The lines that
would set S2_PAGE_ACCESS_XN for non-executable regions are commented
out in the source, so xn is never set. -/
def archMapFlags (mf : MemFlags) : PTEFlags :=
  let f : PTEFlags := ⟨true, true, false, false, false, false, false⟩
  let f := if mf.read then { f with s2ro := true } else f
  let f := if mf.write then { f with s2wo := true } else f
  let f := if mf.io then { f with device := true } else { f with normal := true }
  f

/-- Embedding of arch_map_memory_region (mmu_cell.c lines 19-42).  The
hvirt2phys side-channel translation used for the communication page is
passed in as v2p.  Returns the updated stage-2 paging structure of the
cell. -/
def arch_map_memory_region (v2p : Nat → Nat) (cell : Cell)
    (mem : JailhouseMemory) (pg : PagingStructs) : PagingStructs :=
  let phys_start := mem.phys_start
  let flags := archMapFlags mem.flags
  let phys_start := if mem.flags.commRegion then v2p cell.comm_page_addr else phys_start
  paging_create pg phys_start mem.size mem.virt_start flags

/-- Embedding of arch_unmap_memory_region (mmu_cell.c lines 44-49). -/
def arch_unmap_memory_region (mem : JailhouseMemory) (pg : PagingStructs) :
    PagingStructs :=
  paging_destroy pg mem.virt_start mem.size

/-- Embedding of arch_paging_gphys2phys (mmu_cell.c lines 51-56):
translates a guest-physical address through the cell's stage-2 table. -/
def arch_paging_gphys2phys (pg : PagingStructs) (gphys : Nat) (req : AccessReq) :
    Option Nat :=
  paging_virt2phys pg gphys req

/-- Result codes returned by the embedded functions: -E2BIG and -ENOMEM. -/
inductive CErr where
  | E2BIG
  | ENOMEM
deriving DecidableEq

deriving instance DecidableEq for Except

/-- Dedicated page pool (mem_pool) as the list of free aligned blocks it
can still hand out, in allocation order. -/
abbrev PagePool : Type := List Nat

/-- Embedding of page_alloc_aligned on the pool: hands out the next free
block, or none when the pool is exhausted (NULL return). -/
def page_alloc_aligned (pool : PagePool) : Option Nat × PagePool :=
  match pool with
  | [] => (none, [])
  | p :: rest => (some p, rest)

/-- Embedding of arch_mmu_cell_init (mmu_cell.c lines 58-71): rejects
cell identifiers above 0xff with -E2BIG before touching the pool;
otherwise allocates the root table from the pool, failing with -ENOMEM
when the pool cannot supply it.  Returns the result (on success, the
root-table address) together with the pool state after the call. -/
def arch_mmu_cell_init (cell_id : Nat) (pool : PagePool) :
    Except CErr Nat × PagePool :=
  if cell_id > 0xff then
    (.error .E2BIG, pool)
  else
    match page_alloc_aligned pool with
    | (none, pool') => (.error .ENOMEM, pool')
    | (some root, pool') => (.ok root, pool')

/-- Number of CPUs a cpu_set bitmap is iterated over by for_each_cpu. -/
def maxCpus : Nat := 32

/-- Evaluation of the C idiom for_each_cpu(cpu, set) break; — the loop
runs over set bits in ascending order, so breaking at the first
iteration leaves the numerically lowest set bit in the loop variable;
when the set is empty the variable ends at the loop bound. -/
def firstCpu (cpu_set : Nat) : Nat :=
  match (List.range maxCpus).find? (fun i => cpu_set.testBit i) with
  | some i => i
  | none => maxCpus

/-- Ivshmem endpoint as used by the doorbell: the owning cell of its PCI
device (remote->device->cell) and the config-space interrupt register
cspace[PCI_CFG_INT/4]. -/
structure IvshmemEndpoint where
  cell : Cell
  cspace_int : Nat
deriving DecidableEq

/-- Embedding of arch_ivshmem_write_doorbell (ivshmem.c lines 17-30).
The source assigns remote = ive with the member access ->remote
commented out, so the connection's actual remote endpoint (passed here
as ive_remote) is ignored and every field is read from the local
endpoint.  Returns the single side effect, the
irqchip_set_pending(per_cpu(first_cpu), spi_base + pin - 1) call, as the
(target cpu, interrupt number) pair. -/
def arch_ivshmem_write_doorbell (ive ive_remote : IvshmemEndpoint) : Nat × Nat :=
  let remote := ive
  let remote_cell := remote.cell
  let pin := (remote.cspace_int >>> 8) % 2 ^ 8
  let first_cpu := firstCpu remote_cell.cpu_set
  let spi_base := remote_cell.vpci_irq_base
  (first_cpu, u32 (spi_base + pin + (2 ^ 32 - 1)))

/-- Modelled from the spec: ring_doorbell as specified in section 4.4 —
it resolves the REMOTE endpoint of the connection, targets that cell's
numerically lowest assigned core, and pends that cell's virtual
interrupt base plus the device's interrupt pin minus one. -/
def ring_doorbell_spec (ive ive_remote : IvshmemEndpoint) : Nat × Nat :=
  let remote := ive_remote
  let remote_cell := remote.cell
  let pin := (remote.cspace_int >>> 8) % 2 ^ 8
  let first_cpu := firstCpu remote_cell.cpu_set
  let spi_base := remote_cell.vpci_irq_base
  (first_cpu, u32 (spi_base + pin + (2 ^ 32 - 1)))

/-- One identity-map slot of the scratch allocator (mmu_hyp.c lines
26-30): address, page flags and the conflict marker. -/
structure IdMapSlot where
  addr : Nat
  flags : PTEFlags
  conflict : Bool
deriving DecidableEq

/-- Fixed two-slot identity-map array id_maps[2]. -/
structure IdMaps where
  slot0 : IdMapSlot
  slot1 : IdMapSlot
deriving DecidableEq

/-- Hypervisor stage-1 default page attributes (PAGE_DEFAULT_FLAGS):
valid, access flag and both access permissions set, normal memory type. -/
def PAGE_DEFAULT_FLAGS : PTEFlags := ⟨true, true, true, true, false, true, false⟩

/-- Update of slot i of the two-slot array. -/
def setSlot (m : IdMaps) (i : Nat) (s : IdMapSlot) : IdMaps :=
  if i = 0 then { m with slot0 := s } else { m with slot1 := s }

/-- Embedding of set_id_map (mmu_hyp.c lines 37-53): rejects an index
beyond the two slots with -ENOMEM; rejects a range whose first and last
byte do not share a page, computed as
(address & PAGE_MASK) != ((address + size - 1) & PAGE_MASK) in 32-bit
arithmetic, with -E2BIG; otherwise records the slot with conflict
cleared and default flags. -/
def set_id_map (i address size : Nat) (m : IdMaps) : Except CErr IdMaps :=
  if i ≥ 2 then .error .ENOMEM
  else if pageBase address ≠ pageBase (u32 (address + size + (2 ^ 32 - 1))) then
    .error .E2BIG
  else
    .ok (setSlot m i ⟨address, PAGE_DEFAULT_FLAGS, false⟩)

/-- Loop body of create_id_maps (mmu_hyp.c lines 60-76) for one slot:
probe the hypervisor table for an existing mapping at the slot address;
on conflict leave the table untouched (the TODO branch), otherwise
create a one-page identity mapping; record the conflict flag. -/
def create_id_map_slot (s : IdMapSlot) (hv : PagingStructs) :
    IdMapSlot × PagingStructs :=
  let conflict := (paging_virt2phys hv s.addr PAGE_PRESENT_FLAGS).isSome
  if conflict then
    ({ s with conflict := true }, hv)
  else
    ({ s with conflict := false }, paging_create hv s.addr PAGE_SIZE s.addr s.flags)

/-- Embedding of create_id_maps (mmu_hyp.c lines 55-77): processes the
two slots in order against the hypervisor paging structure. -/
def create_id_maps (m : IdMaps) (hv : PagingStructs) : IdMaps × PagingStructs :=
  let (s0, hv0) := create_id_map_slot m.slot0 hv
  let (s1, hv1) := create_id_map_slot m.slot1 hv0
  (⟨s0, s1⟩, hv1)

/-- Loop body of destroy_id_maps (mmu_hyp.c lines 83-90) for one slot:
a conflicting slot is left alone (the TODO branch), otherwise the
one-page identity mapping is destroyed. -/
def destroy_id_map_slot (s : IdMapSlot) (hv : PagingStructs) : PagingStructs :=
  if s.conflict then hv else paging_destroy hv s.addr PAGE_SIZE

/-- Embedding of destroy_id_maps (mmu_hyp.c lines 79-91). -/
def destroy_id_maps (m : IdMaps) (hv : PagingStructs) : PagingStructs :=
  destroy_id_map_slot m.slot1 (destroy_id_map_slot m.slot0 hv)

/-- Identity-map phase of switch_exception_level (mmu_hyp.c lines
284-288): reserve slot 0 for the trampoline page and slot 1 for the
stack page, returning -E2BIG to the caller if either reservation fails,
then create the identity mappings.  The result carries the error code if
any, the slot array and the hypervisor paging structure at return. -/
def switch_el_id_phase (trampoline_phys trampoline_size stack_phys : Nat)
    (m : IdMaps) (hv : PagingStructs) : Option CErr × IdMaps × PagingStructs :=
  match set_id_map 0 trampoline_phys trampoline_size m with
  | .error _ => (some .E2BIG, m, hv)
  | .ok m1 =>
    match set_id_map 1 stack_phys PAGE_SIZE m1 with
    | .error _ => (some .E2BIG, m1, hv)
    | .ok m2 =>
      let (m3, hv') := create_id_maps m2 hv
      (none, m3, hv')

/-- Capture of the original vector base in switch_exception_level
(mmu_hyp.c lines 269-270): the privileged query hvc(-1) runs only while
the saved value is zero.  Takes the current saved_vectors value and the
query result; returns the new saved_vectors value and whether the query
was performed. -/
def capture_vectors (saved_vectors hvc_result : Nat) : Nat × Bool :=
  if saved_vectors = 0 then (hvc_result, true) else (saved_vectors, false)

/-- Run of successive switch_exception_level vector captures: final
saved_vectors value and how many privileged queries were performed. -/
def run_captures (saved_vectors : Nat) : List Nat → Nat × Nat
  | [] => (saved_vectors, 0)
  | h :: rest =>
    let (s', q) := capture_vectors saved_vectors h
    let (sf, n) := run_captures s' rest
    (sf, (if q then 1 else 0) + n)

/-- Bit position of the VMID field in VTTBR_EL2 (VTTBR_VMID_SHIFT). -/
def VTTBR_VMID_SHIFT : Nat := 48

/-- Evaluation of (cell_table & TTBR_MASK): TTBR_MASK clears the low
table-alignment bits of the base address; for a page-aligned mask and a
32-bit address this equals dropping the address modulo 4096. -/
def ttbrMask (a : Nat) : Nat := a - a % PAGE_SIZE

/-- VTTBR_EL2 value composed by arm_mmu_cpu_cell_init: the cell
identifier in the VMID field ored (bit-disjointly, hence addition) with
the masked table base. -/
def vttbrOf (cell_id cell_table : Nat) : Nat :=
  cell_id * 2 ^ VTTBR_VMID_SHIFT + ttbrMask cell_table

/-- VMID field read back from a VTTBR_EL2 value. -/
def vmidOf (vttbr : Nat) : Nat := vttbr / 2 ^ VTTBR_VMID_SHIFT % 2 ^ 8

/-- Hardware operations issued by the embedded register/TLB sequences,
in program order. -/
inductive HwEvent where
  | writeVTTBR (v : Nat)
  | writeVTCR (v : Nat)
  | isb
  | tlbFlushGuest
  | dsbNsh
deriving DecidableEq

/-- Embedding of arm_cpu_tlb_flush (mmu_cell.c lines 99-107) as its
sequence of hardware operations: tlb_flush_guest then dsb(nsh). -/
def arm_cpu_tlb_flush : List HwEvent :=
  [.tlbFlushGuest, .dsbNsh]

/-- Embedding of arm_mmu_cpu_cell_init (mmu_cell.c lines 78-97) as its
sequence of hardware operations: write VTTBR_EL2 composed from the cell
id and masked table base, write VTCR_EL2 with the VTCR_CELL constant,
isb, then arm_cpu_tlb_flush. -/
def arm_mmu_cpu_cell_init (vtcr_cell cell_id cell_table : Nat) : List HwEvent :=
  [.writeVTTBR (vttbrOf cell_id cell_table), .writeVTCR vtcr_cell, .isb]
    ++ arm_cpu_tlb_flush

/-- Translation-cache state observed by the event interpreter: the VMID
field currently programmed in VTTBR_EL2 and the TLB as a list of
(tagging VMID, entry) pairs. -/
structure TlbState where
  vmid : Nat
  tlb : List (Nat × Nat)
deriving DecidableEq

/-- Interpretation of one hardware operation: a VTTBR write installs its
VMID field; tlb_flush_guest invalidates all entries tagged with the
VMID that is current at the time of the flush (the source comment on
arm_cpu_tlb_flush: invalidate all stage-1 and 2 TLB entries for the
current VMID); barriers and the VTCR write do not change this state. -/
def stepEvent (s : TlbState) : HwEvent → TlbState
  | .writeVTTBR v => { s with vmid := vmidOf v }
  | .writeVTCR _ => s
  | .isb => s
  | .tlbFlushGuest => { s with tlb := s.tlb.filter (fun e => e.1 ≠ s.vmid) }
  | .dsbNsh => s

/-- Run of an operation sequence from an initial translation-cache state. -/
def runEvents (s : TlbState) (es : List HwEvent) : TlbState :=
  es.foldl stepEvent s

/-- Fresh two-slot array before any reservation. -/
def idMaps0 : IdMaps :=
  ⟨⟨0, PAGE_DEFAULT_FLAGS, false⟩, ⟨0, PAGE_DEFAULT_FLAGS, false⟩⟩

/-- Region of the end-to-end scenario: phys 0x40000000, virt 0x40000000,
size 0x1000, flags READ and WRITE only. -/
def regionC2 : JailhouseMemory :=
  ⟨0x40000000, 0x40000000, 0x1000, ⟨true, true, false, false, false⟩⟩

/-- Cell of the end-to-end scenario. -/
def cellC2 : Cell := ⟨1, 1, 0xf000, 32⟩

/-- C1: the doorbell write diverges from the specified routing.
arch_ivshmem_write_doorbell assigns remote = ive with the member access
to the connection's remote endpoint commented out, so for a connection
whose endpoints belong to different cells it injects the interrupt into
the LOCAL endpoint's cell (here cpu 0, interrupt 32 + 1 - 1 = 32)
instead of the remote endpoint's cell (cpu 1, interrupt 64) as the
specification states. -/
theorem C1_doorbell_local_vs_remote :
    arch_ivshmem_write_doorbell ⟨⟨1, 1, 0x1000, 32⟩, 0x100⟩ ⟨⟨2, 2, 0x2000, 64⟩, 0x100⟩
        = (0, 32)
    ∧ ring_doorbell_spec ⟨⟨1, 1, 0x1000, 32⟩, 0x100⟩ ⟨⟨2, 2, 0x2000, 64⟩, 0x100⟩
        = (1, 64)
    ∧ arch_ivshmem_write_doorbell ⟨⟨1, 1, 0x1000, 32⟩, 0x100⟩ ⟨⟨2, 2, 0x2000, 64⟩, 0x100⟩
        ≠ ring_doorbell_spec ⟨⟨1, 1, 0x1000, 32⟩, 0x100⟩ ⟨⟨2, 2, 0x2000, 64⟩, 0x100⟩ := by
  decide

/-- C3: a region flagged as communication region is always backed by the
cell's private communication page: whatever literal phys_start the
descriptor carries, the mapping handed to the paging primitive uses the
translated address of cell.comm_page while virt_start and size come from
the region unchanged, and the result does not depend on phys_start at
all. -/
theorem C3_comm_region_substitution :
    ∀ (v2p : Nat → Nat) (cell : Cell) (mem : JailhouseMemory) (pg : PagingStructs),
      mem.flags.commRegion = true →
      arch_map_memory_region v2p cell mem pg =
        (⟨v2p cell.comm_page_addr, mem.virt_start, mem.size,
          archMapFlags mem.flags⟩ : Mapping) :: pg
      ∧ ∀ p : Nat,
          arch_map_memory_region v2p cell { mem with phys_start := p } pg =
            arch_map_memory_region v2p cell mem pg := by
  intro v2p cell mem pg h
  refine ⟨?_, ?_⟩
  · simp [arch_map_memory_region, paging_create, h]
  · intro p
    simp [arch_map_memory_region, h]

/-- Closed instance of C3 at a concrete input: a communication region
with literal phys_start 0xdead000 is mapped at the communication page's
translated address 0xc0de000 instead. -/
theorem C3_comm_region_substitution_witness :
    arch_map_memory_region id ⟨0, 0, 0xc0de000, 0⟩
        ⟨0xdead000, 0x2000, 0x1000, ⟨true, true, false, false, true⟩⟩ [] =
      (⟨id 0xc0de000, 0x2000, 0x1000,
        archMapFlags ⟨true, true, false, false, true⟩⟩ : Mapping) :: [] :=
  (C3_comm_region_substitution id ⟨0, 0, 0xc0de000, 0⟩
    ⟨0xdead000, 0x2000, 0x1000, ⟨true, true, false, false, true⟩⟩ [] rfl).1

/-- C8: the attribute translation of arch_map_memory_region is a pure
function of the region flags: the readable flag drives the stage-2
read-access bit and the writable flag the write-access bit directly, the
IO flag selects the device memory type and its absence the normal
cacheable type, and valid and access-flag bits are always set (the
execute-never bit is never set); every mapping created by
arch_map_memory_region carries exactly these translated flags together
with the region's virt_start and size. -/
theorem C8_flag_translation :
    (∀ mf : MemFlags,
      (archMapFlags mf).valid = true ∧ (archMapFlags mf).accessFlag = true ∧
      (archMapFlags mf).s2ro = mf.read ∧ (archMapFlags mf).s2wo = mf.write ∧
      (archMapFlags mf).device = mf.io ∧ (archMapFlags mf).normal = !mf.io ∧
      (archMapFlags mf).xn = false)
    ∧ ∀ (v2p : Nat → Nat) (cell : Cell) (mem : JailhouseMemory) (pg : PagingStructs),
        ∃ p, arch_map_memory_region v2p cell mem pg =
          (⟨p, mem.virt_start, mem.size, archMapFlags mem.flags⟩ : Mapping) :: pg := by
  refine ⟨?_, ?_⟩
  · intro mf
    cases mf with
    | mk r w x io c => cases r <;> cases w <;> cases io <;> simp [archMapFlags]
  · intro v2p cell mem pg
    by_cases h : mem.flags.commRegion
    · exact ⟨v2p cell.comm_page_addr, by simp [arch_map_memory_region, paging_create, h]⟩
    · exact ⟨mem.phys_start, by simp [arch_map_memory_region, paging_create, h]⟩

/-- C4: arch_mmu_cell_init rejects identifiers above 0xff with -E2BIG
and leaves the page pool untouched in that case; for identifiers within
the 8-bit width it fails with -ENOMEM exactly when the pool cannot
supply the root table, and succeeds otherwise, consuming the next pool
block as the root table. -/
theorem C4_cell_init_errors :
    ∀ (cell_id : Nat) (pool : PagePool),
      (cell_id > 0xff → arch_mmu_cell_init cell_id pool = (.error .E2BIG, pool))
      ∧ (cell_id ≤ 0xff →
          ((arch_mmu_cell_init cell_id pool).1 = .error .ENOMEM ↔ pool = [])
          ∧ ∀ r rest, pool = r :: rest →
              arch_mmu_cell_init cell_id pool = (.ok r, rest)) := by
  intro cell_id pool
  refine ⟨fun hbig => ?_, fun hsmall => ⟨?_, ?_⟩⟩
  · simp [arch_mmu_cell_init, hbig]
  · cases pool with
    | nil => simp [arch_mmu_cell_init, page_alloc_aligned, Nat.not_lt.2 hsmall]
    | cons r rest =>
      simp [arch_mmu_cell_init, page_alloc_aligned, Nat.not_lt.2 hsmall]
  · intro r rest hpool
    subst hpool
    simp [arch_mmu_cell_init, page_alloc_aligned, Nat.not_lt.2 hsmall]

/-- Closed instance of C4: identifier 256 is rejected with the pool
intact, identifier 5 succeeds consuming the pool block, and on an empty
pool the failure is exactly -ENOMEM. -/
theorem C4_cell_init_errors_witness :
    arch_mmu_cell_init 256 [7] = (.error .E2BIG, [7])
    ∧ arch_mmu_cell_init 5 [7] = (.ok 7, [])
    ∧ ((arch_mmu_cell_init 5 []).1 = .error .ENOMEM ↔ ([] : PagePool) = []) :=
  ⟨(C4_cell_init_errors 256 [7]).1 (by decide),
   ((C4_cell_init_errors 5 [7]).2 (by decide)).2 7 [] rfl,
   ((C4_cell_init_errors 5 []).2 (by decide)).1⟩

/-- Run of successive captures from a nonzero saved value performs no
query and leaves the value unchanged. -/
theorem run_captures_of_ne_zero (s : Nat) (hs : s ≠ 0) :
    ∀ l : List Nat, run_captures s l = (s, 0) := by
  intro l
  induction l with
  | nil => rfl
  | cons h rest ih =>
    simp [run_captures, capture_vectors, hs, ih]

/-- C9 counterexample: when the privileged query returns zero, the
sentinel-based guard (saved_vectors == 0) fires again on the next call,
so the query is performed twice — the capture is not at-most-once and
the second call does not reuse a stored value. -/
theorem C9_counterexample_zero_sentinel :
    capture_vectors 0 0 = (0, true)
    ∧ (capture_vectors (capture_vectors 0 0).1 0).2 = true
    ∧ (run_captures 0 [0, 0]).2 = 2 := by
  decide

/-- C9 amended: the capture is guarded by the zero sentinel — a call
performs the privileged query exactly when the saved value is zero;
any call finding a nonzero saved value performs no query and leaves the
value unchanged; consequently, once a query returns a nonzero value the
whole remaining run performs no further query, and a run whose first
query result is nonzero queries exactly once and keeps that value. -/
theorem C9_capture_once_amended :
    ∀ s h : Nat,
      ((capture_vectors s h).2 = true ↔ s = 0)
      ∧ (s ≠ 0 → capture_vectors s h = (s, false))
      ∧ (s ≠ 0 → ∀ l, run_captures s l = (s, 0))
      ∧ (h ≠ 0 → ∀ rest, run_captures 0 (h :: rest) = (h, 1)) := by
  intro s h
  refine ⟨?_, fun hs => ?_, fun hs => run_captures_of_ne_zero s hs, fun hh rest => ?_⟩
  · by_cases hs : s = 0 <;> simp [capture_vectors, hs]
  · simp [capture_vectors, hs]
  · simp [run_captures, capture_vectors, run_captures_of_ne_zero h hh rest]

/-- Closed instance of the amended C9: a call with saved value 5 does
not query, and a run whose first query yields 3 queries exactly once. -/
theorem C9_capture_once_amended_witness :
    capture_vectors 5 3 = (5, false) ∧ run_captures 0 [3, 9, 0] = (3, 1) :=
  ⟨(C9_capture_once_amended 5 3).2.1 (by decide),
   (C9_capture_once_amended 0 3).2.2.2 (by decide) [9, 0]⟩

/-- C10: the boundary guard of set_id_map computes address + size - 1 in
32-bit arithmetic, so a zero-size reservation wraps to the preceding
page: at any page-aligned 32-bit address a zero-size reservation is
rejected with -E2BIG even though an empty range crosses no boundary,
while at any non-page-aligned address it succeeds and records the slot. -/
theorem C10_zero_size_reservation :
    ∀ (i address : Nat) (m : IdMaps), i < 2 → address < 2 ^ 32 →
      (address % PAGE_SIZE = 0 → set_id_map i address 0 m = .error .E2BIG)
      ∧ (address % PAGE_SIZE ≠ 0 →
          set_id_map i address 0 m =
            .ok (setSlot m i ⟨address, PAGE_DEFAULT_FLAGS, false⟩)) := by
  intro i address m hi ha
  have h32 : (2 : Nat) ^ 32 = 4294967296 := by norm_num
  refine ⟨fun hal => ?_, fun hnal => ?_⟩
  · have hcond : pageBase address ≠ pageBase (u32 (address + 0 + (2 ^ 32 - 1))) := by
      simp only [pageBase, u32, PAGE_SIZE, h32] at *
      omega
    unfold set_id_map
    rw [if_neg (by omega), if_pos hcond]
  · have hcond : ¬ pageBase address ≠ pageBase (u32 (address + 0 + (2 ^ 32 - 1))) := by
      simp only [pageBase, u32, PAGE_SIZE, h32, ne_eq, not_not] at *
      omega
    unfold set_id_map
    rw [if_neg (by omega), if_neg hcond]

/-- Closed instance of C10: at the page-aligned address 0x8000 a
zero-size reservation fails with -E2BIG, at 0x8001 it succeeds. -/
theorem C10_zero_size_reservation_witness :
    set_id_map 0 0x8000 0 idMaps0 = .error .E2BIG
    ∧ set_id_map 0 0x8001 0 idMaps0 =
        .ok (setSlot idMaps0 0 ⟨0x8001, PAGE_DEFAULT_FLAGS, false⟩) :=
  ⟨(C10_zero_size_reservation 0 0x8000 idMaps0 (by decide) (by norm_num)).1 (by decide),
   (C10_zero_size_reservation 0 0x8001 idMaps0 (by decide) (by norm_num)).2 (by decide)⟩

/-- C2 counterexample: in the end-to-end scenario (one region phys
0x40000000, virt 0x40000000, size 0x1000, flags READ|WRITE) the created
stage-2 entry leaves the execute-never attribute clear — the source
lines that would set it are commented out — so a translation of guest
address 0x40000000 REQUESTING execute access also succeeds, refuting
the claim that the translation reports no execute permission. -/
theorem C2_execute_not_restricted :
    arch_paging_gphys2phys (arch_map_memory_region id cellC2 regionC2 [])
        0x40000000 ⟨true, true, true⟩ = some 0x40000000
    ∧ (findMapping (arch_map_memory_region id cellC2 regionC2 []) 0x40000000).map
        (fun mp => mp.flags.xn) = some false := by
  decide

/-- C2 amended: after arch_mmu_cell_init (which succeeds for cell id 1,
returning the pool's root block) and arch_map_memory_region on the
region phys 0x40000000 / virt 0x40000000 / size 0x1000 / READ|WRITE,
translating guest address 0x40000000 through the cell's stage-2 table
yields host physical 0x40000000 with read and write permission; execute
permission is NOT withheld, since the execute-never attribute of the
entry stays clear (the code that would set it is commented out in the
source). -/
theorem C2_end_to_end_translation :
    (arch_mmu_cell_init 1 [0x7000]).1 = .ok 0x7000
    ∧ arch_paging_gphys2phys (arch_map_memory_region id cellC2 regionC2 [])
        0x40000000 ⟨true, true, false⟩ = some 0x40000000
    ∧ (findMapping (arch_map_memory_region id cellC2 regionC2 []) 0x40000000).map
        (fun mp => (mp.flags.s2ro, mp.flags.s2wo, mp.flags.xn))
        = some (true, true, false) := by
  decide

/-- Statement that a page boundary lies strictly inside the byte range
[a, a + size - 1]. -/
def crossesPageBoundary (a size : Nat) : Prop :=
  ∃ b, a < b ∧ b ≤ a + size - 1 ∧ b % PAGE_SIZE = 0

/-- A nonempty byte range [a, a + size - 1] has its endpoints on
different pages exactly when a page boundary lies strictly inside it. -/
theorem pageBase_ne_iff_crosses (a size : Nat) (hs : 0 < size) :
    pageBase a ≠ pageBase (a + size - 1) ↔ crossesPageBoundary a size := by
  unfold pageBase crossesPageBoundary PAGE_SIZE
  constructor
  · intro h
    exact ⟨(a + size - 1) - (a + size - 1) % 4096, by omega, by omega, by omega⟩
  · intro ⟨b, hb1, hb2, hb3⟩
    omega

/-- C5: for an index within the two slots and a nonempty, non-wrapping
range, set_id_map fails exactly when the byte range
[address, address + size - 1] crosses a page boundary, the only error in
that situation being -E2BIG (and, the function being a pure state
transformer, an error records no slot); switch_exception_level turns a
failing reservation of the trampoline slot or of the stack slot into an
-E2BIG return to its caller with the hypervisor paging structure exactly
as it was, before any identity mapping is created. -/
theorem C5_reserve_slot_page_boundary :
    ∀ (i address size : Nat) (m : IdMaps), i < 2 → 0 < size →
      address + size ≤ 2 ^ 32 →
      ((∃ e, set_id_map i address size m = .error e) ↔
        crossesPageBoundary address size)
      ∧ (crossesPageBoundary address size →
          set_id_map i address size m = .error .E2BIG)
      ∧ ∀ (tp ts sp : Nat) (m0 : IdMaps) (hv : PagingStructs),
          ((∃ e, set_id_map 0 tp ts m0 = .error e) →
            switch_el_id_phase tp ts sp m0 hv = (some .E2BIG, m0, hv))
          ∧ ∀ m1, set_id_map 0 tp ts m0 = .ok m1 →
              (∃ e, set_id_map 1 sp PAGE_SIZE m1 = .error e) →
              switch_el_id_phase tp ts sp m0 hv = (some .E2BIG, m1, hv) := by
  intro i address size m hi hs hw
  have h32 : (2 : Nat) ^ 32 = 4294967296 := by norm_num
  have hmask : u32 (address + size + (2 ^ 32 - 1)) = address + size - 1 := by
    simp only [u32, h32] at *
    omega
  have hform : set_id_map i address size m =
      if pageBase address ≠ pageBase (address + size - 1) then .error .E2BIG
      else .ok (setSlot m i ⟨address, PAGE_DEFAULT_FLAGS, false⟩) := by
    unfold set_id_map
    rw [if_neg (by omega), hmask]
  refine ⟨?_, ?_, ?_⟩
  · rw [← pageBase_ne_iff_crosses address size hs]
    constructor
    · intro ⟨e, he⟩
      by_cases hc : pageBase address ≠ pageBase (address + size - 1)
      · exact hc
      · rw [hform, if_neg hc] at he
        exact absurd he (by simp)
    · intro hc
      exact ⟨.E2BIG, by rw [hform, if_pos hc]⟩
  · intro hcross
    rw [hform, if_pos ((pageBase_ne_iff_crosses address size hs).2 hcross)]
  · intro tp ts sp m0 hv
    constructor
    · intro ⟨e, he⟩
      simp [switch_el_id_phase, he]
    · intro m1 h1 ⟨e, he⟩
      simp [switch_el_id_phase, h1, he]

/-- Closed instance of C5: the two-byte range at 0xfff crosses the
boundary at 0x1000, the reservation fails with -E2BIG, and the
transition engine propagates the failure with the hypervisor table
unchanged. -/
theorem C5_reserve_slot_page_boundary_witness :
    set_id_map 0 0xfff 2 idMaps0 = .error .E2BIG
    ∧ switch_el_id_phase 0xfff 2 0x5000 idMaps0 [] = (some .E2BIG, idMaps0, []) := by
  have h := C5_reserve_slot_page_boundary 0 0xfff 2 idMaps0 (by decide) (by decide)
    (by norm_num)
  have hcross : crossesPageBoundary 0xfff 2 :=
    ⟨0x1000, by decide, by decide, by decide⟩
  have he := h.2.1 hcross
  exact ⟨he, (h.2.2 0xfff 2 0x5000 idMaps0 []).1 ⟨.E2BIG, he⟩⟩

/-- Reading the VMID field back from a composed VTTBR value recovers
the cell identifier, for identifiers within the 8-bit field and 32-bit
table addresses. -/
theorem vmidOf_vttbrOf (cell_id table : Nat) (hid : cell_id < 2 ^ 8)
    (ht : table < 2 ^ 32) : vmidOf (vttbrOf cell_id table) = cell_id := by
  have h48 : (2 : Nat) ^ 48 = 281474976710656 := by norm_num
  have h8 : (2 : Nat) ^ 8 = 256 := by norm_num
  have h32 : (2 : Nat) ^ 32 = 4294967296 := by norm_num
  simp only [vmidOf, vttbrOf, ttbrMask, VTTBR_VMID_SHIFT, PAGE_SIZE, h48, h8, h32] at *
  omega

/-- C7 counterexample: on a core whose previous partition identifier is
1, activating cell 2 leaves the TLB entry tagged with the PREVIOUS
identifier 1 in place and instead removes the entries tagged with the
newly written identifier 2 — the flush acts on the identifier current at
flush time, which the preceding VTTBR write has already replaced, not on
the previous one as the claim states. -/
theorem C7_flush_previous_vmid_counterexample :
    runEvents ⟨1, [(1, 100), (2, 200)]⟩ (arm_mmu_cpu_cell_init 0 2 0) =
      ⟨2, [(1, 100)]⟩
    ∧ (1, 100) ∈ (runEvents ⟨1, [(1, 100), (2, 200)]⟩
        (arm_mmu_cpu_cell_init 0 2 0)).tlb
    ∧ (2, 200) ∉ (runEvents ⟨1, [(1, 100), (2, 200)]⟩
        (arm_mmu_cpu_cell_init 0 2 0)).tlb := by
  decide

/-- C7 amended: in arm_mmu_cpu_cell_init the VTTBR and VTCR writes
always precede the instruction-synchronization barrier and that barrier
always precedes the TLB flush, so no flush is issued before the new
partition identifier is visible; and the flush invalidates exactly this
core's stage-1 and stage-2 entries tagged with the NEWLY WRITTEN
(current) identifier — the cell being activated — not the previous one. -/
theorem C7_barrier_order_and_flush :
    ∀ (vtcr cell_id table : Nat) (s : TlbState),
      cell_id < 2 ^ 8 → table < 2 ^ 32 →
      (∃ k : Nat, (arm_mmu_cpu_cell_init vtcr cell_id table)[k]? = some HwEvent.isb
        ∧ (∀ (j v : Nat), (arm_mmu_cpu_cell_init vtcr cell_id table)[j]?
              = some (HwEvent.writeVTTBR v) → j < k)
        ∧ (∀ (j v : Nat), (arm_mmu_cpu_cell_init vtcr cell_id table)[j]?
              = some (HwEvent.writeVTCR v) → j < k)
        ∧ (∀ j : Nat, (arm_mmu_cpu_cell_init vtcr cell_id table)[j]?
              = some HwEvent.tlbFlushGuest → k < j))
      ∧ runEvents s (arm_mmu_cpu_cell_init vtcr cell_id table) =
          ⟨cell_id, s.tlb.filter (fun e => e.1 ≠ cell_id)⟩ := by
  intro vtcr cell_id table s hid ht
  constructor
  · refine ⟨2, by simp [arm_mmu_cpu_cell_init, arm_cpu_tlb_flush], ?_, ?_, ?_⟩
    · intro j v h
      match j with
      | 0 => omega
      | 1 => simp [arm_mmu_cpu_cell_init, arm_cpu_tlb_flush] at h
      | 2 => simp [arm_mmu_cpu_cell_init, arm_cpu_tlb_flush] at h
      | 3 => simp [arm_mmu_cpu_cell_init, arm_cpu_tlb_flush] at h
      | 4 => simp [arm_mmu_cpu_cell_init, arm_cpu_tlb_flush] at h
      | n + 5 => simp [arm_mmu_cpu_cell_init, arm_cpu_tlb_flush] at h
    · intro j v h
      match j with
      | 0 => simp [arm_mmu_cpu_cell_init, arm_cpu_tlb_flush] at h
      | 1 => omega
      | 2 => simp [arm_mmu_cpu_cell_init, arm_cpu_tlb_flush] at h
      | 3 => simp [arm_mmu_cpu_cell_init, arm_cpu_tlb_flush] at h
      | 4 => simp [arm_mmu_cpu_cell_init, arm_cpu_tlb_flush] at h
      | n + 5 => simp [arm_mmu_cpu_cell_init, arm_cpu_tlb_flush] at h
    · intro j h
      match j with
      | 0 => simp [arm_mmu_cpu_cell_init, arm_cpu_tlb_flush] at h
      | 1 => simp [arm_mmu_cpu_cell_init, arm_cpu_tlb_flush] at h
      | 2 => simp [arm_mmu_cpu_cell_init, arm_cpu_tlb_flush] at h
      | 3 => omega
      | 4 => simp [arm_mmu_cpu_cell_init, arm_cpu_tlb_flush] at h
      | n + 5 => simp [arm_mmu_cpu_cell_init, arm_cpu_tlb_flush] at h
  · simp [runEvents, arm_mmu_cpu_cell_init, arm_cpu_tlb_flush, stepEvent,
      vmidOf_vttbrOf cell_id table hid ht]

/-- Closed instance of the amended C7: activating cell 3 on a core with
a mixed TLB removes exactly the entries tagged 3 and installs
identifier 3. -/
theorem C7_barrier_order_and_flush_witness :
    runEvents ⟨7, [(3, 9), (1, 4)]⟩ (arm_mmu_cpu_cell_init 5 3 0x8000) =
      ⟨3, [(1, 4)]⟩ := by
  have h := (C7_barrier_order_and_flush 5 3 0x8000 ⟨7, [(3, 9), (1, 4)]⟩
    (by decide) (by norm_num)).2
  rw [h]
  rfl

/-- Presence probe against a paging structure, exactly the expression
create_id_maps uses for its conflict detection. -/
def isMapped (hv : PagingStructs) (addr : Nat) : Bool :=
  (paging_virt2phys hv addr PAGE_PRESENT_FLAGS).isSome

/-- Presence-only queries are granted by exactly the valid entries. -/
theorem flagsGrant_present (f : PTEFlags) :
    flagsGrant f PAGE_PRESENT_FLAGS = f.valid := by
  simp [flagsGrant, PAGE_PRESENT_FLAGS]

/-- Unfolding of create_id_map_slot through the presence probe. -/
theorem create_id_map_slot_eq (s : IdMapSlot) (hv : PagingStructs) :
    create_id_map_slot s hv =
      if isMapped hv s.addr then ({ s with conflict := true }, hv)
      else ({ s with conflict := false },
        paging_create hv s.addr PAGE_SIZE s.addr s.flags) := rfl

/-- An address not mapped through a list headed by a valid entry is not
mapped through the tail and is not covered by the head. -/
theorem isMapped_cons_false {M : Mapping} {hv : PagingStructs} {a : Nat}
    (hMval : M.flags.valid = true) (h : isMapped (M :: hv) a = false) :
    isMapped hv a = false ∧ ¬(M.virt ≤ a ∧ a < M.virt + M.size) := by
  simp only [isMapped, paging_virt2phys, findMapping, List.find?_cons] at h ⊢
  cases hM : (decide (M.virt ≤ a) && decide (a < M.virt + M.size)) with
  | true =>
    exfalso
    rw [hM] at h
    simp [flagsGrant_present, hMval] at h
  | false =>
    rw [hM] at h
    refine ⟨h, ?_⟩
    simpa using hM

/-- When no probe at an address succeeds in an all-valid table, no entry
of the table covers that address. -/
theorem not_covered_of_not_mapped {hv : PagingStructs} {a : Nat}
    (hval : ∀ mp ∈ hv, mp.flags.valid = true) (h : isMapped hv a = false) :
    ∀ mp ∈ hv, ¬(mp.virt ≤ a ∧ a < mp.virt + mp.size) := by
  induction hv with
  | nil =>
    intro mp hmp
    simp at hmp
  | cons M rest ih =>
    have hMval : M.flags.valid = true := hval M (by simp)
    obtain ⟨hrest, hM⟩ := isMapped_cons_false hMval h
    intro mp hmp
    rcases List.mem_cons.mp hmp with rfl | hmp'
    · exact hM
    · exact ih (fun q hq => hval q (List.mem_cons_of_mem _ hq)) hrest mp hmp'

/-- When no probe at an address succeeds in an all-valid table, no entry
sits at exactly that address with one-page size. -/
theorem no_exact_entry_of_not_mapped {hv : PagingStructs} {a : Nat}
    (hval : ∀ mp ∈ hv, mp.flags.valid = true) (h : isMapped hv a = false) :
    ∀ mp ∈ hv, ¬(mp.virt = a ∧ mp.size = PAGE_SIZE) := by
  intro mp hmp hex
  obtain ⟨h1, h2⟩ := hex
  refine not_covered_of_not_mapped hval h mp hmp ⟨le_of_eq h1, ?_⟩
  rw [h1, h2]
  simp [PAGE_SIZE]

/-- Destroying a range no entry of the table occupies leaves the table
unchanged. -/
theorem paging_destroy_eq_self {hv : PagingStructs} {v sz : Nat}
    (h : ∀ mp ∈ hv, ¬(mp.virt = v ∧ mp.size = sz)) :
    paging_destroy hv v sz = hv := by
  unfold paging_destroy
  apply List.filter_eq_self.mpr
  intro mp hmp
  simp only [Bool.not_eq_true', decide_eq_false_iff_not]
  exact h mp hmp

/-- Destroying removes a head entry sitting at exactly the destroyed
range. -/
theorem paging_destroy_cons_match {M : Mapping} (hv : PagingStructs) {v sz : Nat}
    (h1 : M.virt = v) (h2 : M.size = sz) :
    paging_destroy (M :: hv) v sz = paging_destroy hv v sz := by
  unfold paging_destroy
  rw [List.filter_cons_of_neg]
  simp [h1, h2]

/-- Destroying passes over a head entry at a different range. -/
theorem paging_destroy_cons_of_ne {M : Mapping} (hv : PagingStructs) {v sz : Nat}
    (h : ¬(M.virt = v ∧ M.size = sz)) :
    paging_destroy (M :: hv) v sz = M :: paging_destroy hv v sz := by
  unfold paging_destroy
  rw [List.filter_cons_of_pos]
  simp only [Bool.not_eq_true', decide_eq_false_iff_not]
  exact h

/-- C6: creation and destruction of the identity maps are symmetric on
the conflict flag.  Per slot: create_id_maps changes the hypervisor
table exactly when the slot's address was not already mapped there, it
records that fact in the slot's conflict flag, and the change is
exactly the creation of the one-page identity mapping; destroy_id_maps
leaves the table alone for a conflicting slot and destroys the slot's
one-page range for a non-conflicting one.  Consequently, on a table
whose entries are all valid and with valid slot attributes, running
create_id_maps and then destroy_id_maps restores the hypervisor table
exactly, pre-existing mappings at conflicting slots untouched. -/
theorem C6_conflict_symmetry :
    (∀ (s : IdMapSlot) (hv : PagingStructs),
      ((create_id_map_slot s hv).2 ≠ hv ↔ isMapped hv s.addr = false)
      ∧ (create_id_map_slot s hv).1.conflict = isMapped hv s.addr
      ∧ (isMapped hv s.addr = false →
          (create_id_map_slot s hv).2 =
            paging_create hv s.addr PAGE_SIZE s.addr s.flags)
      ∧ (s.conflict = true → destroy_id_map_slot s hv = hv)
      ∧ (s.conflict = false →
          destroy_id_map_slot s hv = paging_destroy hv s.addr PAGE_SIZE))
    ∧ ∀ (m : IdMaps) (hv : PagingStructs),
        (∀ mp ∈ hv, mp.flags.valid = true) →
        m.slot0.flags.valid = true → m.slot1.flags.valid = true →
        destroy_id_maps (create_id_maps m hv).1 (create_id_maps m hv).2 = hv := by
  constructor
  · intro s hv
    refine ⟨?_, ?_, ?_, ?_, ?_⟩
    · cases hc : isMapped hv s.addr with
      | true => simp [create_id_map_slot_eq, hc]
      | false => simp [create_id_map_slot_eq, hc, paging_create, List.cons_ne_self]
    · cases hc : isMapped hv s.addr with
      | true => simp [create_id_map_slot_eq, hc]
      | false => simp [create_id_map_slot_eq, hc]
    · intro hc
      simp [create_id_map_slot_eq, hc]
    · intro hc
      simp [destroy_id_map_slot, hc]
    · intro hc
      simp [destroy_id_map_slot, hc]
  · intro m hv hval h0v h1v
    cases hc0 : isMapped hv m.slot0.addr with
    | true =>
      cases hc1 : isMapped hv m.slot1.addr with
      | true =>
        simp [create_id_maps, create_id_map_slot_eq, hc0, hc1, destroy_id_maps,
          destroy_id_map_slot]
      | false =>
        simp [create_id_maps, create_id_map_slot_eq, hc0, hc1, destroy_id_maps,
          destroy_id_map_slot, paging_create]
        rw [paging_destroy_cons_match _ rfl rfl]
        exact paging_destroy_eq_self (no_exact_entry_of_not_mapped hval hc1)
    | false =>
      cases hc1 : isMapped
          (paging_create hv m.slot0.addr PAGE_SIZE m.slot0.addr m.slot0.flags)
          m.slot1.addr with
      | true =>
        have hc1' : isMapped
            ((⟨m.slot0.addr, m.slot0.addr, PAGE_SIZE, m.slot0.flags⟩ : Mapping) :: hv)
            m.slot1.addr = true := hc1
        simp [create_id_maps, create_id_map_slot_eq, hc0, hc1', destroy_id_maps,
          destroy_id_map_slot, paging_create]
        rw [paging_destroy_cons_match _ rfl rfl]
        exact paging_destroy_eq_self (no_exact_entry_of_not_mapped hval hc0)
      | false =>
        have hc1' : isMapped
            ((⟨m.slot0.addr, m.slot0.addr, PAGE_SIZE, m.slot0.flags⟩ : Mapping) :: hv)
            m.slot1.addr = false := hc1
        obtain ⟨hrest, hncov⟩ := isMapped_cons_false h0v hc1'
        simp only [] at hncov
        have hne : ¬(m.slot1.addr = m.slot0.addr ∧ (PAGE_SIZE : Nat) = PAGE_SIZE) := by
          intro hpair
          obtain ⟨heq, _⟩ := hpair
          apply hncov
          refine ⟨by omega, ?_⟩
          show m.slot1.addr < m.slot0.addr + PAGE_SIZE
          simp only [PAGE_SIZE]
          omega
        simp [create_id_maps, create_id_map_slot_eq, hc0, hc1', destroy_id_maps,
          destroy_id_map_slot, paging_create]
        rw [paging_destroy_cons_of_ne _ hne,
          paging_destroy_cons_match _ rfl rfl,
          paging_destroy_cons_match _ rfl rfl,
          paging_destroy_eq_self (no_exact_entry_of_not_mapped hval hc0)]
        exact paging_destroy_eq_self (no_exact_entry_of_not_mapped hval hrest)

/-- Closed instance of C6: with one pre-existing valid mapping at
0x9000, reserving slots at 0x9000 (conflicting) and 0x5000
(non-conflicting), the create/destroy round trip restores the
hypervisor table exactly, leaving the pre-existing mapping untouched. -/
theorem C6_conflict_symmetry_witness :
    destroy_id_maps
        (create_id_maps ⟨⟨0x9000, PAGE_DEFAULT_FLAGS, false⟩,
          ⟨0x5000, PAGE_DEFAULT_FLAGS, false⟩⟩
          [⟨0x9000, 0x9000, 0x1000, PAGE_DEFAULT_FLAGS⟩]).1
        (create_id_maps ⟨⟨0x9000, PAGE_DEFAULT_FLAGS, false⟩,
          ⟨0x5000, PAGE_DEFAULT_FLAGS, false⟩⟩
          [⟨0x9000, 0x9000, 0x1000, PAGE_DEFAULT_FLAGS⟩]).2 =
      [⟨0x9000, 0x9000, 0x1000, PAGE_DEFAULT_FLAGS⟩] :=
  C6_conflict_symmetry.2 ⟨⟨0x9000, PAGE_DEFAULT_FLAGS, false⟩,
      ⟨0x5000, PAGE_DEFAULT_FLAGS, false⟩⟩
    [⟨0x9000, 0x9000, 0x1000, PAGE_DEFAULT_FLAGS⟩]
    (by simp [PAGE_DEFAULT_FLAGS]) rfl rfl

end Jailhouse








